import Mathlib

/-!
Verification of the migration checkpoint & setup-resolution protocol of
`jobsdb` (file `jobsdb/jobsdb_migration_events.go`).

The relational checkpoint table is modelled as an explicit list of rows kept
in ascending-id order together with the next identity value; each SQL
statement the Go code issues becomes a pure function on that state.  Pure
helpers (`getNumberOfJobsFromFileLocation`, `getLastJobID`) are translated
directly, including their partiality: a Go panic (out-of-range slice index,
failed assertion) is `none` / a `fatal` constructor.
-/

/-! ## Enumerations (ENUM Values for MigrationType / Status) -/

def ExportOp : String := "export"

def ImportOp : String := "import"

def AcceptNewEventsOp : String := "acceptNewEvents"

def SetupForExport : String := "setup_for_export"

def Exported : String := "exported"

def Notified : String := "notified"

def Completed : String := "completed"

def SetupToAcceptNewEvents : String := "setup_to_accept_new_events"

def SetupForImport : String := "setup_for_import"

def PreparedForImport : String := "prepared_for_import"

def Imported : String := "imported"

/-! ## Dataset descriptor and payloads -/

/-- Modelled from the spec: the dataset-boundary descriptor `dataSetT` is
declared elsewhere in the `jobsdb` package (not under `src/`); the spec
treats it as an opaque "dataset descriptor" blob serialized into the setup
event's `Payload`, so it is modelled as an abstract record with decidable
equality. -/
structure dataSetT where
  descriptor : String
deriving Repr, DecidableEq, Inhabited

/-- A `json.RawMessage` payload as the Go code actually produces it: either
the literal bytes `{}` (the `NewMigrationEvent` default) or `json.Marshal`
of a `dataSetT`. -/
inductive PayloadT where
  | emptyObject : PayloadT
  | ds (d : dataSetT) : PayloadT
deriving Repr, DecidableEq, Inhabited

/-- Go `json.Unmarshal` of a stored payload into a `dataSetT`: unmarshalling
the empty object `{}` succeeds and leaves the zero value; unmarshalling a
marshalled descriptor returns it. -/
def unmarshalDS : PayloadT → Option dataSetT
  | PayloadT.emptyObject => some default
  | PayloadT.ds d => some d

/-! ## MigrationEvent record -/

/-- MigrationEvent captures an event of export/import to recover from in
case of a crash during migration (field for field the Go struct; the
`time.Time` timestamp is abstracted to a `Nat`). -/
structure MigrationEvent where
  ID : Int
  MigrationType : String
  FromNode : String
  ToNode : String
  FileLocation : String
  Status : String
  StartSeq : Int
  Payload : PayloadT
  TimeStamp : Nat
deriving Repr, DecidableEq

/-! ## Sequence Accountant (pure functions) -/

/-- Go `fileLocationSplitter`: true on the delimiters `_` and `.`. -/
def fileLocationSplitter (r : Char) : Bool :=
  r == '_' || r == '.'

/-- Go `strings.FieldsFunc`: split into maximal runs of characters on which
the predicate is false; no empty fields are produced. -/
def fieldsFunc (p : Char → Bool) (s : List Char) : List String :=
  let step : Char → List Char × List (List Char) → List Char × List (List Char) :=
    fun c acc =>
      if p c then ([], if acc.1.isEmpty then acc.2 else acc.1 :: acc.2)
      else (c :: acc.1, acc.2)
  let r := s.foldr step ([], [])
  (if r.1.isEmpty then r.2 else r.1 :: r.2).map List.asString

/-- Sign handling of Go `strconv.ParseInt`: strip one leading `+` or `-`,
remembering whether the value is negated. -/
def splitSign : List Char → Bool × List Char
  | '+' :: r => (false, r)
  | '-' :: r => (true, r)
  | r => (false, r)

/-- Whether a string is syntactically a base-10 integer for Go
`strconv.ParseInt`: an optional sign followed by one or more ASCII digits. -/
def goIntSyntaxOk (s : String) : Bool :=
  !(splitSign s.toList).2.isEmpty && (splitSign s.toList).2.all Char.isDigit

/-- Decimal value of a digit string. -/
def digitsToNat (ds : List Char) : Nat :=
  ds.foldl (fun a c => a * 10 + (c.toNat - 48)) 0

/-- The `int64` value Go `strconv.ParseInt(s, 10, 64)` returns, error
ignored as the source does: `0` on a syntax error, the value clamped to the
int64 range on overflow, the parsed value otherwise. -/
def goParseInt64 (s : String) : Int :=
  if (splitSign s.toList).2.isEmpty || !(splitSign s.toList).2.all Char.isDigit then 0
  else if (splitSign s.toList).1 then
    if digitsToNat (splitSign s.toList).2 > 2 ^ 63 then -(2 ^ 63)
    else -(digitsToNat (splitSign s.toList).2 : Int)
  else
    if digitsToNat (splitSign s.toList).2 ≥ 2 ^ 63 then 2 ^ 63 - 1
    else (digitsToNat (splitSign s.toList).2 : Int)

/-- Go `getNumberOfJobsFromFileLocation`: split the location on `_` and `.`
and parse the second-to-last token.  The unguarded index
`slicedS[len(slicedS)-2]` panics when fewer than two tokens result, which is
`none` here. -/
def getNumberOfJobsFromFileLocation (fileLocation : String) : Option Int :=
  let slicedS := fieldsFunc fileLocationSplitter fileLocation.toList
  if h : 2 ≤ slicedS.length then
    some (goParseInt64 (slicedS.get ⟨slicedS.length - 2, by omega⟩))
  else
    none

/-- Go `(*MigrationEvent).getLastJobID`: `0` when `StartSeq` is the
unsequenced sentinel `0`, otherwise `StartSeq` plus the job count embedded in
`FileLocation` minus one (propagating the panic of the count function). -/
def getLastJobID (migrationEvent : MigrationEvent) : Option Int :=
  if migrationEvent.StartSeq == 0 then some 0
  else (getNumberOfJobsFromFileLocation migrationEvent.FileLocation).map
    (fun n => migrationEvent.StartSeq + n - 1)

/-! ## Checkpoint Store -/

/-- The checkpoint table: rows in ascending-id (creation) order plus the
next `BIGSERIAL` identity value. -/
structure Store where
  rows : List MigrationEvent
  nextId : Int
deriving Repr, DecidableEq

/-- The empty checkpoint table right after `SetupCheckpointTable`
(`BIGSERIAL` identities start at 1). -/
def emptyStore : Store := ⟨[], 1⟩

/-- The `INSERT ... ON CONFLICT (file_location) DO UPDATE SET
status=EXCLUDED.status RETURNING id` statement: append a fresh row when no
row holds the event's `FileLocation` (the column is `UNIQUE`), otherwise
update only the `status` of the conflicting row; return the affected row's
id. -/
def insertOnConflict (st : Store) (ev : MigrationEvent) (now : Nat) : Store × Int :=
  match st.rows.find? (fun r => r.FileLocation == ev.FileLocation) with
  | some r =>
      ({ st with rows := st.rows.map (fun q =>
          if q.FileLocation == ev.FileLocation then { q with Status := ev.Status } else q) },
       r.ID)
  | none =>
      let newRow : MigrationEvent := { ev with ID := st.nextId, TimeStamp := now }
      ({ rows := st.rows ++ [newRow], nextId := st.nextId + 1 }, st.nextId)

/-- The `UPDATE ... SET status = $1, start_sequence = $2 WHERE id = $3
RETURNING id` statement: `none` when no row holds that id (the `RETURNING`
scan then fails with `sql.ErrNoRows`). -/
def updateById (st : Store) (id : Int) (status : String) (startSeq : Int) :
    Store × Option Int :=
  match st.rows.find? (fun r => r.ID == id) with
  | some _ =>
      ({ st with rows := st.rows.map (fun q =>
          if q.ID == id then { q with Status := status, StartSeq := startSeq } else q) },
       some id)
  | none => (st, none)

/-- The membership test of the `jd.assert` guarding `CheckpointInTxn`. -/
def validMigrationType (t : String) : Bool :=
  t == ExportOp || t == ImportOp || t == AcceptNewEventsOp

/-- Why a checkpoint call aborted the process (or poisoned its
transaction). -/
inductive FatalReason where
  | unsupportedMigrationType : FatalReason
  | dbError (msg : String) : FatalReason
deriving Repr, DecidableEq

/-- Outcome of `CheckpointInTxn`.  `fatal` is a process abort
(`jd.assert` / `jd.assertError` firing).  `ok st txnErr id` is a normal
return of `id`: `txnErr` is the statement error left pending inside the
caller-supplied transaction — the Go code does not inspect `err` when `txn`
is non-nil, so the error reaches the caller through the aborted transaction
at commit/rollback time. -/
inductive CkptResult where
  | fatal (r : FatalReason) : CkptResult
  | ok (st : Store) (txnErr : Option String) (id : Int) : CkptResult
deriving Repr, DecidableEq

/-- Go `CheckpointInTxn`.  `hasTxn` is whether a caller transaction handle
was supplied; `writeErr` injects the database error (if any) of the single
write statement; `now` is the insert timestamp. -/
def CheckpointInTxn (hasTxn : Bool) (st : Store) (migrationEvent : MigrationEvent)
    (now : Nat) (writeErr : Option String) : CkptResult :=
  if !validMigrationType migrationEvent.MigrationType then
    CkptResult.fatal FatalReason.unsupportedMigrationType
  else
    match writeErr with
    | some e =>
        if hasTxn then CkptResult.ok st (some e) 0
        else CkptResult.fatal (FatalReason.dbError e)
    | none =>
        if migrationEvent.ID > 0 then
          match updateById st migrationEvent.ID migrationEvent.Status migrationEvent.StartSeq with
          | (st2, some id) => CkptResult.ok st2 none id
          | (st2, none) =>
              if hasTxn then CkptResult.ok st2 (some "sql: no rows in result set") 0
              else CkptResult.fatal (FatalReason.dbError "sql: no rows in result set")
        else
          let res := insertOnConflict st migrationEvent now
          CkptResult.ok res.1 none res.2

/-- Go `Checkpoint`: `CheckpointInTxn` with no transaction (healthy
database, no injected statement error). -/
def Checkpoint (st : Store) (migrationEvent : MigrationEvent) (now : Nat) : CkptResult :=
  CheckpointInTxn false st migrationEvent now none

/-- Go `GetCheckpoints`: all events of the given type and status in
ascending id order (`rows` is kept in that order). -/
def GetCheckpoints (st : Store) (migrationType status : String) : List MigrationEvent :=
  st.rows.filter (fun r => r.MigrationType == migrationType && r.Status == status)

/-- The setup status `GetSetupCheckpoint` associates to a migration type
(Go leaves the string empty for an unrecognized type). -/
def setupStatusFor (migrationType : String) : String :=
  if migrationType == ExportOp then SetupForExport
  else if migrationType == AcceptNewEventsOp then SetupToAcceptNewEvents
  else if migrationType == ImportOp then SetupForImport
  else ""

/-- Outcome of `GetSetupCheckpoint`: no setup event yet, exactly one, or the
fatal `panic` when more than one is found. -/
inductive SetupResult where
  | absent : SetupResult
  | found (e : MigrationEvent) : SetupResult
  | fatal : SetupResult
deriving Repr, DecidableEq

/-- Go `GetSetupCheckpoint`: fetch the checkpoints carrying the type's setup
status and case on how many there are. -/
def GetSetupCheckpoint (st : Store) (migrationType : String) : SetupResult :=
  match GetCheckpoints st migrationType (setupStatusFor migrationType) with
  | [] => SetupResult.absent
  | [e] => SetupResult.found e
  | _ => SetupResult.fatal

/-- Go `getSeqNoForFileFromDB`: asserts the type is `export` or `import`
(`none` = the assertion fires), then reads the most recently recorded
`start_sequence` for the file under that type (`ORDER BY id DESC`, first
row), defaulting to `0` when no row matches. -/
def getSeqNoForFileFromDB (st : Store) (fileLocation migrationType : String) :
    Option Int :=
  if migrationType == ExportOp || migrationType == ImportOp then
    match (st.rows.filter (fun r =>
        r.FileLocation == fileLocation && r.MigrationType == migrationType)).getLast? with
    | some r => some r.StartSeq
    | none => some 0
  else none

/-! ## Constructors -/

/-- Go `NewMigrationEvent`: id `0` (not yet persisted), payload the empty
object, timestamp `now`. -/
def NewMigrationEvent (migrationType fromNode toNode fileLocation status : String)
    (startSeq : Int) (now : Nat) : MigrationEvent :=
  ⟨0, migrationType, fromNode, toNode, fileLocation, status, startSeq,
   PayloadT.emptyObject, now⟩

/-- Go `NewSetupCheckpointEvent`: canonical setup event per migration type;
`none` is the `panic("Illegal usage")` on an unrecognized type. -/
def NewSetupCheckpointEvent (migrationType node : String) (now : Nat) :
    Option MigrationEvent :=
  if migrationType == ExportOp then
    some (NewMigrationEvent migrationType node "All" SetupForExport SetupForExport 0 now)
  else if migrationType == AcceptNewEventsOp then
    some (NewMigrationEvent migrationType "All" node SetupToAcceptNewEvents
      SetupToAcceptNewEvents 0 now)
  else if migrationType == ImportOp then
    some (NewMigrationEvent migrationType "All" node SetupForImport SetupForImport 0 now)
  else none

/-! ## Setup Resolver -/

/-- Outcome of `findOrCreateDsFromSetupCheckpoint`. -/
inductive FindResult where
  | fatal : FindResult
  | ok (st : Store) (ds : dataSetT) : FindResult
deriving Repr, DecidableEq

/-- The payload-selection `switch` inside `findOrCreateDsFromSetupCheckpoint`:
per migration type, which external Dataset Selector result becomes the
payload (the Go switch has no default; the zero value stands for the
unreachable fall-through). -/
def selectDs (migrationType : String)
    (getLastDsForExport getDsForNewEvents getDsForImport : dataSetT) : dataSetT :=
  if migrationType == ExportOp then getLastDsForExport
  else if migrationType == AcceptNewEventsOp then getDsForNewEvents
  else if migrationType == ImportOp then getDsForImport
  else default

/-- Go `findOrCreateDsFromSetupCheckpoint`.  The three external Dataset
Selector results (`getLastDsForExport`, `getDsForNewEvents`,
`getDsForImport` applied to the current dataset list) are passed in as
values, and `node` is `misc.GetNodeID()`.  If a setup checkpoint exists its
payload is deserialized and returned; otherwise a new setup event carrying
the selected descriptor is checkpointed and the descriptor returned. -/
def findOrCreateDsFromSetupCheckpoint (st : Store) (migrationType node : String)
    (getLastDsForExport getDsForNewEvents getDsForImport : dataSetT) (now : Nat) :
    FindResult :=
  match GetSetupCheckpoint st migrationType with
  | SetupResult.fatal => FindResult.fatal
  | SetupResult.found e =>
      match unmarshalDS e.Payload with
      | some p => FindResult.ok st p
      | none => FindResult.fatal
  | SetupResult.absent =>
      match NewSetupCheckpointEvent migrationType node now with
      | none => FindResult.fatal
      | some me =>
          let payload :=
            selectDs migrationType getLastDsForExport getDsForNewEvents getDsForImport
          let me2 := { me with Payload := PayloadT.ds payload }
          match Checkpoint st me2 now with
          | CkptResult.fatal _ => FindResult.fatal
          | CkptResult.ok st2 _ _ =>
              match unmarshalDS me2.Payload with
              | some p => FindResult.ok st2 p
              | none => FindResult.fatal

/-! ## Derived notions used by the invariants -/

/-- The rows `GetSetupCheckpoint` counts for a type: its setup status under
that type. -/
def setupRowsFor (st : Store) (migrationType : String) : List MigrationEvent :=
  GetCheckpoints st migrationType (setupStatusFor migrationType)

/-- The `file_location TEXT UNIQUE` column constraint. -/
def uniqueFileLocations (st : Store) : Prop :=
  st.rows.Pairwise (fun a b => a.FileLocation ≠ b.FileLocation)

/-- Every setup-status row of the type sits at the canonical file location
(the setup status string), which is what the setup-event constructor
guarantees for every row it ever inserts. -/
def setupRowsAtCanonicalLoc (st : Store) (migrationType : String) : Prop :=
  ∀ r ∈ st.rows, r.MigrationType = migrationType →
    r.Status = setupStatusFor migrationType →
    r.FileLocation = setupStatusFor migrationType

/-- Checkpoint a freshly constructed setup event for the type, with the
payload the resolver would attach (the store is returned unchanged on the
fatal paths, which valid types never take). -/
def checkpointSetupEvent (st : Store) (migrationType node : String) (p : PayloadT)
    (now : Nat) : Store :=
  match NewSetupCheckpointEvent migrationType node now with
  | some me =>
      match Checkpoint st { me with Payload := p } now with
      | CkptResult.ok st2 _ _ => st2
      | CkptResult.fatal _ => st
  | none => st

/-- Any sequence of `Checkpoint` calls on setup events constructed for one
migration type (each call from a possibly different node, with a possibly
different payload). -/
def checkpointSetupSeq (st : Store) (migrationType : String)
    (calls : List (String × PayloadT)) (now : Nat) : Store :=
  calls.foldl (fun s c => checkpointSetupEvent s migrationType c.1 c.2 now) st

/-! ## Helper lemmas on the store -/

theorem find?_loc_eq_none (rows : List MigrationEvent) (fl : String)
    (h : ∀ r ∈ rows, r.FileLocation ≠ fl) :
    rows.find? (fun r => r.FileLocation == fl) = none := by
  rw [List.find?_eq_none]
  intro r hr
  simpa using h r hr

theorem find?_loc_append_single (rows : List MigrationEvent) (row : MigrationEvent)
    (fl : String) (h : ∀ r ∈ rows, r.FileLocation ≠ fl) (hrow : row.FileLocation = fl) :
    (rows ++ [row]).find? (fun r => r.FileLocation == fl) = some row := by
  rw [List.find?_append, find?_loc_eq_none rows fl h]
  simp [List.find?, hrow]

theorem filter_loc_eq_nil (rows : List MigrationEvent) (fl : String)
    (h : ∀ r ∈ rows, r.FileLocation ≠ fl) :
    rows.filter (fun r => r.FileLocation == fl) = [] := by
  rw [List.filter_eq_nil_iff]
  intro r hr
  simpa using h r hr

theorem map_status_update_no_loc (rows : List MigrationEvent) (fl status : String)
    (h : ∀ r ∈ rows, r.FileLocation ≠ fl) :
    rows.map (fun q => if q.FileLocation == fl then { q with Status := status } else q) =
      rows := by
  have : rows.map (fun q =>
      if q.FileLocation == fl then { q with Status := status } else q) = rows.map id := by
    apply List.map_congr_left
    intro a ha
    simp [h a ha]
  simpa using this

/-- Field facts about the constructed setup event shared by several proofs:
for a valid migration type the constructor succeeds and pins identity,
type, file location and status. -/
theorem newSetupCheckpointEvent_fields (mt node : String) (now : Nat)
    (hv : validMigrationType mt = true) :
    ∃ me, NewSetupCheckpointEvent mt node now = some me ∧
      me.ID = 0 ∧ me.MigrationType = mt ∧
      me.FileLocation = setupStatusFor mt ∧ me.Status = setupStatusFor mt ∧
      me.StartSeq = 0 := by
  have hv3 : (mt = ExportOp ∨ mt = ImportOp) ∨ mt = AcceptNewEventsOp := by
    simpa [validMigrationType] using hv
  rcases hv3 with (h | h) | h <;> subst h <;>
    exact ⟨_, rfl, rfl, rfl, rfl, rfl, rfl⟩

/-! ## C1: GetSetupCheckpoint case analysis -/

/-- C1.  For every migration type in {export, import, acceptNewEvents},
`GetSetupCheckpoint` returns absent when the store holds zero events with
that type's setup status, returns that single event when it holds exactly
one, and fails fatally when it holds more than one. -/
theorem c1_getSetupCheckpoint_cases (st : Store) (mt : String)
    (hv : validMigrationType mt = true) :
    (setupRowsFor st mt = [] → GetSetupCheckpoint st mt = SetupResult.absent) ∧
    (∀ e, setupRowsFor st mt = [e] → GetSetupCheckpoint st mt = SetupResult.found e) ∧
    (2 ≤ (setupRowsFor st mt).length → GetSetupCheckpoint st mt = SetupResult.fatal) := by
  unfold GetSetupCheckpoint
  unfold setupRowsFor
  refine ⟨?_, ?_, ?_⟩
  · intro h
    rw [h]
  · intro e h
    rw [h]
  · intro h
    rcases hL : GetCheckpoints st mt (setupStatusFor mt) with _ | ⟨a, _ | ⟨b, rest⟩⟩
    · rw [hL] at h
      simp at h
    · rw [hL] at h
      simp at h
    · rfl

/-- Concrete single setup row used as the C1 witness store. -/
def exampleSetupEvent : MigrationEvent :=
  ⟨1, "export", "node1", "All", "setup_for_export", "setup_for_export", 0,
   PayloadT.ds ⟨"ds_for_export_0"⟩, 7⟩

def exampleStore : Store := ⟨[exampleSetupEvent], 2⟩

theorem c1_witness :
    GetSetupCheckpoint exampleStore ExportOp = SetupResult.found exampleSetupEvent :=
  (c1_getSetupCheckpoint_cases exampleStore ExportOp (by decide)).2.1
    exampleSetupEvent (by decide)

/-! ## C4: error policy of CheckpointInTxn -/

/-- C4.  For every migration event with a recognized type: with no
transaction handle a write error is fatal; with a caller-supplied
transaction the call does not abort and the error is left in the
transaction for the caller to decide commit or rollback. -/
theorem c4_txn_error_policy (st : Store) (ev : MigrationEvent) (now : Nat)
    (e : String) (hv : validMigrationType ev.MigrationType = true) :
    CheckpointInTxn false st ev now (some e) =
      CkptResult.fatal (FatalReason.dbError e) ∧
    CheckpointInTxn true st ev now (some e) = CkptResult.ok st (some e) 0 := by
  unfold CheckpointInTxn
  rw [hv]
  exact ⟨rfl, rfl⟩

theorem c4_witness :
    CheckpointInTxn false exampleStore exampleSetupEvent 9 (some "disk full") =
      CkptResult.fatal (FatalReason.dbError "disk full") ∧
    CheckpointInTxn true exampleStore exampleSetupEvent 9 (some "disk full") =
      CkptResult.ok exampleStore (some "disk full") 0 :=
  c4_txn_error_policy exampleStore exampleSetupEvent 9 "disk full" (by decide)

/-! ## C5: migration-type precondition (corrected) -/

/-- C5 counterexample.  The claim states `getSeqNoForFileFromDB` fails fast
iff the type is outside {export, import, acceptNewEvents}; but
`acceptNewEvents` is inside that set and the call still fails fast (its
assertion only admits export and import). -/
theorem c5_counterexample :
    validMigrationType AcceptNewEventsOp = true ∧
    getSeqNoForFileFromDB emptyStore "export_a_to_b_1_5.json" AcceptNewEventsOp =
      none := by
  decide

/-- C5 amended.  `Checkpoint` and `CheckpointInTxn` fail their precondition
iff the type is outside {export, import, acceptNewEvents}; whereas
`getSeqNoForFileFromDB` fails its precondition iff the type is outside
{export, import} — it also rejects acceptNewEvents. -/
theorem c5_amended_precondition (hasTxn : Bool) (st : Store) (ev : MigrationEvent)
    (now : Nat) (writeErr : Option String) (fl mt : String) :
    (CheckpointInTxn hasTxn st ev now writeErr =
        CkptResult.fatal FatalReason.unsupportedMigrationType ↔
      validMigrationType ev.MigrationType = false) ∧
    (Checkpoint st ev now = CkptResult.fatal FatalReason.unsupportedMigrationType ↔
      validMigrationType ev.MigrationType = false) ∧
    (getSeqNoForFileFromDB st fl mt = none ↔
      (mt == ExportOp || mt == ImportOp) = false) := by
  have hmain : ∀ (b : Bool) (we : Option String),
      CheckpointInTxn b st ev now we =
        CkptResult.fatal FatalReason.unsupportedMigrationType ↔
      validMigrationType ev.MigrationType = false := by
    intro b we
    unfold CheckpointInTxn
    cases hv : validMigrationType ev.MigrationType with
    | false => simp
    | true =>
      simp only [Bool.not_true, Bool.false_eq_true, if_false]
      constructor
      · intro h
        exfalso
        rcases we with _ | e
        · by_cases hid : ev.ID > 0
          · rcases hupd : updateById st ev.ID ev.Status ev.StartSeq with ⟨st2, oid⟩
            rcases oid with _ | id <;> cases b <;> simp [hid, hupd] at h
          · simp [hid] at h
        · cases b <;> simp at h
      · intro h
        simp at h
  refine ⟨hmain hasTxn writeErr, hmain false none, ?_⟩
  unfold getSeqNoForFileFromDB
  constructor
  · intro h
    cases hcond : (mt == ExportOp || mt == ImportOp) with
    | false => rfl
    | true =>
      exfalso
      rw [if_pos hcond] at h
      revert h
      split <;> simp
  · intro h
    rw [if_neg (by simp [h])]

theorem c5_witness :
    Checkpoint emptyStore
        ⟨0, "bogusType", "a", "b", "f.json", "s", 0, PayloadT.emptyObject, 0⟩ 0 =
      CkptResult.fatal FatalReason.unsupportedMigrationType :=
  ((c5_amended_precondition false emptyStore
      ⟨0, "bogusType", "a", "b", "f.json", "s", 0, PayloadT.emptyObject, 0⟩
      0 none "f.json" "export").2.1).mpr (by decide)

/-! ## C6: last job id -/

/-- C6.  `getLastJobID` returns 0 when `StartSeq` is 0 for any
`FileLocation`, and otherwise returns `StartSeq` plus the job count from the
file location minus one (the concrete instance of the claim is the
witness). -/
theorem c6_lastJobID (ev : MigrationEvent) :
    (ev.StartSeq = 0 → getLastJobID ev = some 0) ∧
    (ev.StartSeq ≠ 0 → getLastJobID ev =
      (getNumberOfJobsFromFileLocation ev.FileLocation).map
        (fun n => ev.StartSeq + n - 1)) := by
  constructor
  · intro h
    simp [getLastJobID, h]
  · intro h
    simp [getLastJobID, h]

theorem c6_witness :
    getLastJobID ⟨3, ExportOp, "node1", "node2",
        "export_node1_to_node2_42_17.json", Exported, 100,
        PayloadT.emptyObject, 0⟩ = some 116 := by
  have h := (c6_lastJobID ⟨3, ExportOp, "node1", "node2",
      "export_node1_to_node2_42_17.json", Exported, 100,
      PayloadT.emptyObject, 0⟩).2 (by decide)
  rw [h]
  decide

/-! ## C7: job count from file location -/

/-- C7.  For every file-location string whose split on `_` and `.` yields at
least two tokens, the job count is the second-to-last token parsed as an
integer. -/
theorem c7_second_to_last_token (s : String)
    (h : 2 ≤ (fieldsFunc fileLocationSplitter s.toList).length) :
    getNumberOfJobsFromFileLocation s =
      some (goParseInt64 ((fieldsFunc fileLocationSplitter s.toList).get
        ⟨(fieldsFunc fileLocationSplitter s.toList).length - 2, by omega⟩)) := by
  unfold getNumberOfJobsFromFileLocation
  rw [dif_pos h]

theorem c7_witness :
    getNumberOfJobsFromFileLocation "export_node1_to_node2_42_17.json" = some 17 :=
  (c7_second_to_last_token "export_node1_to_node2_42_17.json" (by decide)).trans
    (by decide)

/-! ## C8: canonical setup constructor values -/

/-- C8.  For every node identifier the setup-event constructor produces the
canonical values per migration type, with id 0 and start sequence 0 in every
case. -/
theorem c8_setup_constructor_fields (node : String) (now : Nat) :
    (NewSetupCheckpointEvent ExportOp node now).map
        (fun e => (e.FromNode, e.ToNode, e.Status, e.ID, e.StartSeq)) =
      some (node, "All", SetupForExport, 0, 0) ∧
    (NewSetupCheckpointEvent AcceptNewEventsOp node now).map
        (fun e => (e.FromNode, e.ToNode, e.Status, e.ID, e.StartSeq)) =
      some ("All", node, SetupToAcceptNewEvents, 0, 0) ∧
    (NewSetupCheckpointEvent ImportOp node now).map
        (fun e => (e.FromNode, e.ToNode, e.Status, e.ID, e.StartSeq)) =
      some ("All", node, SetupForImport, 0, 0) :=
  ⟨rfl, rfl, rfl⟩

/-! ## C9: partiality of the job-count parser -/

theorem goParseInt64_syntax_err (s : String) (h : goIntSyntaxOk s = false) :
    goParseInt64 s = 0 := by
  unfold goIntSyntaxOk at h
  unfold goParseInt64
  cases hemp : (splitSign s.toList).2.isEmpty with
  | true => simp
  | false =>
    cases hall : (splitSign s.toList).2.all Char.isDigit with
    | false => simp
    | true =>
      exfalso
      rw [hemp, hall] at h
      exact absurd h (by decide)

/-- C9.  `getNumberOfJobsFromFileLocation` is only defined for locations
splitting into at least two tokens: with fewer it panics (as does
`getLastJobID` on a non-zero `StartSeq` event with such a location), and a
non-numeric second-to-last token silently yields count 0. -/
theorem c9_jobcount_partiality :
    (∀ s : String, (fieldsFunc fileLocationSplitter s.toList).length < 2 →
      getNumberOfJobsFromFileLocation s = none) ∧
    getNumberOfJobsFromFileLocation "" = none ∧
    getNumberOfJobsFromFileLocation "json" = none ∧
    (∀ ev : MigrationEvent, ev.StartSeq ≠ 0 →
      (fieldsFunc fileLocationSplitter ev.FileLocation.toList).length < 2 →
      getLastJobID ev = none) ∧
    (∀ s : String, ∀ h2 : 2 ≤ (fieldsFunc fileLocationSplitter s.toList).length,
      goIntSyntaxOk ((fieldsFunc fileLocationSplitter s.toList).get
        ⟨(fieldsFunc fileLocationSplitter s.toList).length - 2, by omega⟩) = false →
      getNumberOfJobsFromFileLocation s = some 0) := by
  have hnone : ∀ s : String, (fieldsFunc fileLocationSplitter s.toList).length < 2 →
      getNumberOfJobsFromFileLocation s = none := by
    intro s h
    unfold getNumberOfJobsFromFileLocation
    rw [dif_neg (by omega)]
  refine ⟨hnone, by decide, by decide, ?_, ?_⟩
  · intro ev h1 h2
    unfold getLastJobID
    rw [if_neg (by simpa using h1), hnone ev.FileLocation h2]
    rfl
  · intro s h2 hsyn
    unfold getNumberOfJobsFromFileLocation
    rw [dif_pos h2]
    exact congrArg some (goParseInt64_syntax_err _ hsyn)

theorem c9_witness :
    getNumberOfJobsFromFileLocation "json" = none ∧
    getNumberOfJobsFromFileLocation "a_b.json" = some 0 :=
  ⟨c9_jobcount_partiality.2.2.1,
   c9_jobcount_partiality.2.2.2.2 "a_b.json" (by decide) (by decide)⟩

/-! ## Reduction lemmas for Checkpoint -/

theorem checkpoint_insert_reduce (st : Store) (ev : MigrationEvent) (now : Nat)
    (hv : validMigrationType ev.MigrationType = true) (hid : ev.ID = 0) :
    Checkpoint st ev now =
      CkptResult.ok (insertOnConflict st ev now).1 none (insertOnConflict st ev now).2 := by
  unfold Checkpoint CheckpointInTxn
  simp only [hv, Bool.not_true, Bool.false_eq_true, if_false]
  rw [if_neg (by omega)]

theorem insertOnConflict_fresh (st : Store) (ev : MigrationEvent) (now : Nat)
    (h : ∀ r ∈ st.rows, r.FileLocation ≠ ev.FileLocation) :
    insertOnConflict st ev now =
      (⟨st.rows ++ [{ ev with ID := st.nextId, TimeStamp := now }], st.nextId + 1⟩,
       st.nextId) := by
  unfold insertOnConflict
  rw [find?_loc_eq_none st.rows ev.FileLocation h]

theorem insertOnConflict_found_fst (st : Store) (ev : MigrationEvent) (now : Nat)
    (r0 : MigrationEvent)
    (hf : st.rows.find? (fun r => r.FileLocation == ev.FileLocation) = some r0) :
    insertOnConflict st ev now =
      ({ st with rows := st.rows.map (fun q =>
          if q.FileLocation == ev.FileLocation then { q with Status := ev.Status } else q) },
       r0.ID) := by
  unfold insertOnConflict
  rw [hf]

/-! ## C3: upsert on FileLocation conflict -/

/-- C3.  Checkpointing two events with the same `FileLocation` and id 0
into a store not yet holding that location produces exactly one row with
that location, whose `Status` is the second call's status and whose every
other field is exactly as the first insert left it; the store grows by one
row in total. -/
theorem c3_upsert_second_status (st : Store) (ev1 ev2 : MigrationEvent)
    (now1 now2 : Nat) (h1 : ev1.ID = 0) (h2 : ev2.ID = 0)
    (hfl : ev2.FileLocation = ev1.FileLocation)
    (hv1 : validMigrationType ev1.MigrationType = true)
    (hv2 : validMigrationType ev2.MigrationType = true)
    (hno : ∀ r ∈ st.rows, r.FileLocation ≠ ev1.FileLocation) :
    ∃ st1 st2,
      Checkpoint st ev1 now1 = CkptResult.ok st1 none st.nextId ∧
      Checkpoint st1 ev2 now2 = CkptResult.ok st2 none st.nextId ∧
      st2.rows.filter (fun r => r.FileLocation == ev1.FileLocation) =
        [{ ev1 with ID := st.nextId, TimeStamp := now1, Status := ev2.Status }] ∧
      st2.rows.length = st.rows.length + 1 := by
  have hck1 : Checkpoint st ev1 now1 =
      CkptResult.ok
        ⟨st.rows ++ [{ ev1 with ID := st.nextId, TimeStamp := now1 }], st.nextId + 1⟩
        none st.nextId := by
    rw [checkpoint_insert_reduce st ev1 now1 hv1 h1,
        insertOnConflict_fresh st ev1 now1 hno]
  have hfind2 : (st.rows ++ [{ ev1 with ID := st.nextId, TimeStamp := now1 }]).find?
      (fun r => r.FileLocation == ev2.FileLocation) =
      some { ev1 with ID := st.nextId, TimeStamp := now1 } := by
    rw [hfl]
    exact find?_loc_append_single st.rows _ ev1.FileLocation hno rfl
  have hck2 : Checkpoint
        ⟨st.rows ++ [{ ev1 with ID := st.nextId, TimeStamp := now1 }], st.nextId + 1⟩
        ev2 now2 =
      CkptResult.ok
        ⟨st.rows ++ [{ ev1 with ID := st.nextId, TimeStamp := now1, Status := ev2.Status }],
         st.nextId + 1⟩
        none st.nextId := by
    rw [checkpoint_insert_reduce _ ev2 now2 hv2 h2,
        insertOnConflict_found_fst _ ev2 now2 _ hfind2]
    simp only [List.map_append]
    rw [map_status_update_no_loc st.rows ev2.FileLocation ev2.Status
        (by intro r hr; rw [hfl]; exact hno r hr)]
    simp [hfl]
  refine ⟨_, _, hck1, hck2, ?_, ?_⟩
  · show (st.rows ++ [{ ev1 with ID := st.nextId, TimeStamp := now1, Status := ev2.Status }]).filter
        (fun r : MigrationEvent => r.FileLocation == ev1.FileLocation) =
      [{ ev1 with ID := st.nextId, TimeStamp := now1, Status := ev2.Status }]
    rw [List.filter_append, filter_loc_eq_nil st.rows ev1.FileLocation hno]
    simp
  · show (st.rows ++ [{ ev1 with ID := st.nextId, TimeStamp := now1, Status := ev2.Status }]).length =
        st.rows.length + 1
    simp

def c3ev1 : MigrationEvent :=
  ⟨0, ExportOp, "node1", "All", "export_n1_to_n2_1_5.json", Exported, 0,
   PayloadT.emptyObject, 0⟩

def c3ev2 : MigrationEvent :=
  ⟨0, ExportOp, "node1", "All", "export_n1_to_n2_1_5.json", Notified, 0,
   PayloadT.emptyObject, 0⟩

theorem c3_witness : ∃ st1 st2,
    Checkpoint emptyStore c3ev1 11 = CkptResult.ok st1 none emptyStore.nextId ∧
    Checkpoint st1 c3ev2 12 = CkptResult.ok st2 none emptyStore.nextId ∧
    st2.rows.filter (fun r => r.FileLocation == c3ev1.FileLocation) =
      [{ c3ev1 with ID := emptyStore.nextId, TimeStamp := 11, Status := c3ev2.Status }] ∧
    st2.rows.length = emptyStore.rows.length + 1 :=
  c3_upsert_second_status emptyStore c3ev1 c3ev2 11 12 rfl rfl rfl
    (by decide) (by decide) (by intro r hr; simp [emptyStore] at hr)

/-! ## C2: find-or-create is idempotent and honors prior decisions -/

theorem unmarshalDS_total (pl : PayloadT) : ∃ p, unmarshalDS pl = some p := by
  cases pl with
  | emptyObject => exact ⟨default, rfl⟩
  | ds d => exact ⟨d, rfl⟩

theorem findOrCreate_creates (st : Store) (mt node : String) (e1 e2 e3 : dataSetT)
    (now : Nat) (hv : validMigrationType mt = true)
    (hempty : setupRowsFor st mt = [])
    (hnoloc : ∀ r ∈ st.rows, r.FileLocation ≠ setupStatusFor mt) :
    ∃ me, NewSetupCheckpointEvent mt node now = some me ∧
      me.MigrationType = mt ∧ me.FileLocation = setupStatusFor mt ∧
      me.Status = setupStatusFor mt ∧
      findOrCreateDsFromSetupCheckpoint st mt node e1 e2 e3 now =
        FindResult.ok
          ⟨st.rows ++
            [{ ({ me with Payload := PayloadT.ds (selectDs mt e1 e2 e3) } : MigrationEvent)
                with ID := st.nextId, TimeStamp := now }],
           st.nextId + 1⟩
          (selectDs mt e1 e2 e3) := by
  obtain ⟨me, hme, hid, hmtE, hloc, hstatus, _⟩ :=
    newSetupCheckpointEvent_fields mt node now hv
  refine ⟨me, hme, hmtE, hloc, hstatus, ?_⟩
  have habsent : GetSetupCheckpoint st mt = SetupResult.absent := by
    unfold setupRowsFor at hempty
    unfold GetSetupCheckpoint
    rw [hempty]
  have hv2 : validMigrationType
      ({ me with Payload := PayloadT.ds (selectDs mt e1 e2 e3) } : MigrationEvent).MigrationType
      = true := by
    show validMigrationType me.MigrationType = true
    rw [hmtE]
    exact hv
  have hnoloc2 : ∀ r ∈ st.rows, r.FileLocation ≠
      ({ me with Payload := PayloadT.ds (selectDs mt e1 e2 e3) } : MigrationEvent).FileLocation := by
    intro r hr
    show r.FileLocation ≠ me.FileLocation
    rw [hloc]
    exact hnoloc r hr
  have hck := checkpoint_insert_reduce st
    { me with Payload := PayloadT.ds (selectDs mt e1 e2 e3) } now hv2 hid
  rw [insertOnConflict_fresh st _ now hnoloc2] at hck
  simp only [findOrCreateDsFromSetupCheckpoint, habsent, hme]
  rw [hck]
  rfl

/-- C2.  For a fixed valid migration type over a store with no setup row
yet, two sequential `findOrCreateDsFromSetupCheckpoint` calls (even from
different nodes, with different Dataset Selector answers on the second
call) return the identical descriptor and leave exactly one setup-status
row; and whenever a setup checkpoint already exists, the call returns its
deserialized payload without consulting the Dataset Selector (the result is
the same for every selector input). -/
theorem c2_findOrCreate_idempotent (st : Store) (mt node1 node2 : String)
    (e1 e2 e3 f1 f2 f3 : dataSetT) (now1 now2 : Nat)
    (hv : validMigrationType mt = true)
    (hempty : setupRowsFor st mt = [])
    (hnoloc : ∀ r ∈ st.rows, r.FileLocation ≠ setupStatusFor mt) :
    (∃ st1 ds,
      findOrCreateDsFromSetupCheckpoint st mt node1 e1 e2 e3 now1 =
        FindResult.ok st1 ds ∧
      findOrCreateDsFromSetupCheckpoint st1 mt node2 f1 f2 f3 now2 =
        FindResult.ok st1 ds ∧
      (setupRowsFor st1 mt).length = 1) ∧
    (∀ (st' : Store) (e : MigrationEvent),
      GetSetupCheckpoint st' mt = SetupResult.found e →
      ∃ p, unmarshalDS e.Payload = some p ∧
        ∀ g1 g2 g3 : dataSetT,
          findOrCreateDsFromSetupCheckpoint st' mt node1 g1 g2 g3 now1 =
            FindResult.ok st' p) := by
  constructor
  · obtain ⟨me, hme, hmtE, hloc, hstatus, hfirst⟩ :=
      findOrCreate_creates st mt node1 e1 e2 e3 now1 hv hempty hnoloc
    have hGC : GetCheckpoints
        ⟨st.rows ++
          [{ ({ me with Payload := PayloadT.ds (selectDs mt e1 e2 e3) } : MigrationEvent)
              with ID := st.nextId, TimeStamp := now1 }],
         st.nextId + 1⟩ mt (setupStatusFor mt) =
        [{ ({ me with Payload := PayloadT.ds (selectDs mt e1 e2 e3) } : MigrationEvent)
            with ID := st.nextId, TimeStamp := now1 }] := by
      unfold setupRowsFor at hempty
      unfold GetCheckpoints at hempty ⊢
      simp only [List.filter_append]
      rw [hempty]
      simp [hmtE, hstatus]
    have hfound : GetSetupCheckpoint
        ⟨st.rows ++
          [{ ({ me with Payload := PayloadT.ds (selectDs mt e1 e2 e3) } : MigrationEvent)
              with ID := st.nextId, TimeStamp := now1 }],
         st.nextId + 1⟩ mt =
        SetupResult.found
          { ({ me with Payload := PayloadT.ds (selectDs mt e1 e2 e3) } : MigrationEvent)
              with ID := st.nextId, TimeStamp := now1 } := by
      unfold GetSetupCheckpoint
      rw [hGC]
    refine ⟨_, selectDs mt e1 e2 e3, hfirst, ?_, ?_⟩
    · simp only [findOrCreateDsFromSetupCheckpoint, hfound]
      rfl
    · unfold setupRowsFor
      rw [hGC]
      rfl
  · intro st' e hfound
    obtain ⟨p, hp⟩ := unmarshalDS_total e.Payload
    refine ⟨p, hp, fun g1 g2 g3 => ?_⟩
    simp only [findOrCreateDsFromSetupCheckpoint, hfound, hp]

theorem c2_witness : ∃ st1 ds,
    findOrCreateDsFromSetupCheckpoint emptyStore ExportOp "node1"
        ⟨"dsA"⟩ ⟨"dsB"⟩ ⟨"dsC"⟩ 3 = FindResult.ok st1 ds ∧
    findOrCreateDsFromSetupCheckpoint st1 ExportOp "node2"
        ⟨"dsX"⟩ ⟨"dsY"⟩ ⟨"dsZ"⟩ 4 = FindResult.ok st1 ds ∧
    (setupRowsFor st1 ExportOp).length = 1 :=
  (c2_findOrCreate_idempotent emptyStore ExportOp "node1" "node2"
      ⟨"dsA"⟩ ⟨"dsB"⟩ ⟨"dsC"⟩ ⟨"dsX"⟩ ⟨"dsY"⟩ ⟨"dsZ"⟩ 3 4
      (by decide) (by decide) (by intro r hr; simp [emptyStore] at hr)).1

/-! ## C10: the insert path preserves the at-most-one-setup invariant -/

theorem statusUpdate_fileLocation (q : MigrationEvent) (fl status : String) :
    ((if q.FileLocation == fl then { q with Status := status } else q) :
      MigrationEvent).FileLocation = q.FileLocation := by
  split <;> rfl

theorem setupRows_le_one (st : Store) (mt : String)
    (hu : uniqueFileLocations st) (hc : setupRowsAtCanonicalLoc st mt) :
    (setupRowsFor st mt).length ≤ 1 := by
  unfold setupRowsFor GetCheckpoints
  have hp : (st.rows.filter
        (fun r => r.MigrationType == mt && r.Status == setupStatusFor mt)).Pairwise
      (fun a b => a.FileLocation ≠ b.FileLocation) :=
    List.Pairwise.sublist (List.filter_sublist st.rows) hu
  rcases hL : st.rows.filter
      (fun r => r.MigrationType == mt && r.Status == setupStatusFor mt)
    with _ | ⟨a, _ | ⟨b, rest⟩⟩
  · rw [hL]
    simp
  · rw [hL]
    simp
  · exfalso
    rw [hL] at hp
    have hab : a.FileLocation ≠ b.FileLocation :=
      (List.pairwise_cons.mp hp).1 b (by simp)
    have ha : a ∈ st.rows ∧
        (a.MigrationType == mt && a.Status == setupStatusFor mt) = true := by
      have : a ∈ st.rows.filter
          (fun r => r.MigrationType == mt && r.Status == setupStatusFor mt) := by
        rw [hL]; simp
      simpa [List.mem_filter] using this
    have hb : b ∈ st.rows ∧
        (b.MigrationType == mt && b.Status == setupStatusFor mt) = true := by
      have : b ∈ st.rows.filter
          (fun r => r.MigrationType == mt && r.Status == setupStatusFor mt) := by
        rw [hL]; simp
      simpa [List.mem_filter] using this
    have ha2 : a.FileLocation = setupStatusFor mt := by
      have := ha.2
      simp only [Bool.and_eq_true, beq_iff_eq] at this
      exact hc a ha.1 this.1 this.2
    have hb2 : b.FileLocation = setupStatusFor mt := by
      have := hb.2
      simp only [Bool.and_eq_true, beq_iff_eq] at this
      exact hc b hb.1 this.1 this.2
    exact hab (ha2.trans hb2.symm)

theorem checkpointSetupEvent_preserves (st : Store) (mt node : String) (p : PayloadT)
    (now : Nat) (hv : validMigrationType mt = true)
    (hu : uniqueFileLocations st) (hc : setupRowsAtCanonicalLoc st mt) :
    uniqueFileLocations (checkpointSetupEvent st mt node p now) ∧
    setupRowsAtCanonicalLoc (checkpointSetupEvent st mt node p now) mt := by
  obtain ⟨me, hme, hid, hmtE, hloc, hstatus, _⟩ :=
    newSetupCheckpointEvent_fields mt node now hv
  have hv2 : validMigrationType
      ({ me with Payload := p } : MigrationEvent).MigrationType = true := by
    show validMigrationType me.MigrationType = true
    rw [hmtE]
    exact hv
  have hstep : checkpointSetupEvent st mt node p now =
      (insertOnConflict st { me with Payload := p } now).1 := by
    unfold checkpointSetupEvent
    simp only [hme]
    rw [checkpoint_insert_reduce st { me with Payload := p } now hv2 hid]
  rw [hstep]
  rcases hf : st.rows.find?
      (fun r => r.FileLocation == ({ me with Payload := p } : MigrationEvent).FileLocation)
    with _ | r0
  · -- fresh location: a row at the canonical location is appended
    rw [insertOnConflict_fresh st { me with Payload := p } now
        (by intro r hr; simpa using List.find?_eq_none.mp hf r hr)]
    have hnew : ∀ r ∈ st.rows,
        r.FileLocation ≠ me.FileLocation :=
      fun r hr => by simpa using List.find?_eq_none.mp hf r hr
    constructor
    · show (st.rows ++
        [{ ({ me with Payload := p } : MigrationEvent)
            with ID := st.nextId, TimeStamp := now }]).Pairwise
        (fun a b : MigrationEvent => a.FileLocation ≠ b.FileLocation)
      rw [List.pairwise_append]
      refine ⟨hu, by simp, ?_⟩
      intro a ha b hb
      simp only [List.mem_singleton] at hb
      subst hb
      show a.FileLocation ≠ me.FileLocation
      exact hnew a ha
    · intro r hr hrmt hrst
      rcases List.mem_append.mp hr with hr1 | hr1
      · exact hc r hr1 hrmt hrst
      · simp only [List.mem_singleton] at hr1
        subst hr1
        show me.FileLocation = setupStatusFor mt
        exact hloc
  · -- conflict: only the status of the existing row changes
    rw [insertOnConflict_found_fst st { me with Payload := p } now r0 hf]
    constructor
    · show (st.rows.map (fun q =>
          if q.FileLocation == ({ me with Payload := p } : MigrationEvent).FileLocation
          then { q with Status := ({ me with Payload := p } : MigrationEvent).Status }
          else q)).Pairwise
        (fun a b : MigrationEvent => a.FileLocation ≠ b.FileLocation)
      rw [List.pairwise_map]
      refine hu.imp ?_
      intro a b hab
      rw [statusUpdate_fileLocation, statusUpdate_fileLocation]
      exact hab
    · intro r hr hrmt hrst
      rcases List.mem_map.mp hr with ⟨q, hq, hqr⟩
      by_cases hql : (q.FileLocation ==
          ({ me with Payload := p } : MigrationEvent).FileLocation) = true
      · have : r.FileLocation = q.FileLocation := by
          rw [← hqr]
          exact statusUpdate_fileLocation q _ _
        rw [this]
        have : q.FileLocation = me.FileLocation := by simpa using hql
        rw [this]
        exact hloc
      · have hqid : (if q.FileLocation ==
            ({ me with Payload := p } : MigrationEvent).FileLocation
            then { q with Status := ({ me with Payload := p } :
              MigrationEvent).Status } else q) = q := by
          rw [if_neg (by simpa using hql)]
        rw [hqid] at hqr
        subst hqr
        exact hc q hq hrmt hrst

theorem checkpointSetupSeq_preserves (st : Store) (mt : String)
    (calls : List (String × PayloadT)) (now : Nat)
    (hv : validMigrationType mt = true)
    (hu : uniqueFileLocations st) (hc : setupRowsAtCanonicalLoc st mt) :
    uniqueFileLocations (checkpointSetupSeq st mt calls now) ∧
    setupRowsAtCanonicalLoc (checkpointSetupSeq st mt calls now) mt := by
  induction calls generalizing st with
  | nil => exact ⟨hu, hc⟩
  | cons c rest ih =>
    have h1 := checkpointSetupEvent_preserves st mt c.1 c.2 now hv hu hc
    exact ih _ h1.1 h1.2

/-- C10.  For every valid migration type the constructed setup event's
`FileLocation` equals the type's setup-status string, and therefore (because
the insert upserts on the unique `file_location` key) any sequence of
`Checkpoint` calls on constructed setup events of that type leaves at most
one setup-status row — the invariant is preserved by every insert, not
merely checked on read. -/
theorem c10_setup_singleton_invariant (mt : String)
    (hv : validMigrationType mt = true) :
    (∀ (node : String) (now : Nat), ∃ me,
      NewSetupCheckpointEvent mt node now = some me ∧
      me.FileLocation = setupStatusFor mt) ∧
    (∀ (st : Store) (calls : List (String × PayloadT)) (now : Nat),
      uniqueFileLocations st → setupRowsAtCanonicalLoc st mt →
      (setupRowsFor (checkpointSetupSeq st mt calls now) mt).length ≤ 1) := by
  constructor
  · intro node now
    obtain ⟨me, hme, _, _, hloc, _, _⟩ := newSetupCheckpointEvent_fields mt node now hv
    exact ⟨me, hme, hloc⟩
  · intro st calls now hu hc
    have h := checkpointSetupSeq_preserves st mt calls now hv hu hc
    exact setupRows_le_one _ mt h.1 h.2

theorem c10_witness :
    (setupRowsFor (checkpointSetupSeq emptyStore ExportOp
      [("node1", PayloadT.ds ⟨"dsA"⟩), ("node2", PayloadT.ds ⟨"dsB"⟩)] 0)
      ExportOp).length ≤ 1 :=
  (c10_setup_singleton_invariant ExportOp (by decide)).2 emptyStore
    [("node1", PayloadT.ds ⟨"dsA"⟩), ("node2", PayloadT.ds ⟨"dsB"⟩)] 0
    (by simp [uniqueFileLocations, emptyStore])
    (by intro r hr; simp [emptyStore] at hr)
